import Mathlib

/-!
Verification of the Context Window & Request Orchestrator of the
`ai-girlfriend-v2` backend (file `app/services/ai_service.py`, plus the
prompt templates of `app/config/prompts.py`).

Modelling conventions of this shallow embedding:
* Python strings are lists of unicode scalar values (`PyStr := List Char`);
  `len`, slicing, `startswith`, `in`, `split(sep)[0]`, `replace` and `strip`
  are embedded as executable list functions below.
* The tokenizer bound method `self.count_tokens` is passed around as an
  arbitrary function `cnt : PyStr → Nat`, since every property proved here
  holds for every token counter; the character-estimate fallback is
  `fun s => s.length / 4` as in the source.
* Python exceptions are values of the inductive type `PyExc`; code that can
  raise is embedded into `Except PyExc`.
* The runtime-configurable values read from `settings` are the fields of the
  `Settings` structure (only the fields the studied code reads).
* The persona constant `ALICE_BASE_PROMPT` is an opaque text whose content
  never influences the properties below, so the functions that read it take
  it as the explicit argument `base_prompt`.
-/

set_option autoImplicit false

/-- Python strings, modelled as their sequence of code points. -/
abbrev PyStr := List Char

/-- The whitespace predicate used by Python `str.strip()` (ASCII part:
space, tab, newline, carriage return, vertical tab, form feed). -/
def pyIsSpace (c : Char) : Bool :=
  c == ' ' || c == '\t' || c == '\n' || c == '\r' || c == Char.ofNat 11 || c == Char.ofNat 12

/-- Python `s.strip()`: drop leading and trailing whitespace. -/
def stripL (s : PyStr) : PyStr :=
  ((s.dropWhile pyIsSpace).reverse.dropWhile pyIsSpace).reverse

/-- Recursion core of `replaceAll`, structural on a fuel argument. One unit
of fuel is spent per character position examined, and each step consumes at
least one character of the remaining input, so fuel `s.length` always
suffices; when fuel runs out the remaining input (necessarily `[]` on
reachable calls) is returned unchanged. -/
def replaceAllAux (pat rep : PyStr) : Nat → PyStr → PyStr
  | 0, s => s
  | _ + 1, [] => []
  | fuel + 1, c :: rest =>
    if pat ≠ [] ∧ pat <+: (c :: rest) then
      rep ++ replaceAllAux pat rep fuel ((c :: rest).drop pat.length)
    else
      c :: replaceAllAux pat rep fuel rest

/-- Python `s.replace(pat, rep)` for a non-empty pattern `pat`: replace all
non-overlapping occurrences, scanning left to right without rescanning the
replacement. (For `pat = []` the function returns `s` unchanged; the source
never calls `replace` with an empty pattern.) -/
def replaceAll (pat rep s : PyStr) : PyStr := replaceAllAux pat rep s.length s

/-- Python `s.split(pat)[0]` for a non-empty pattern: the segment of `s`
before the first occurrence of `pat` (all of `s` if `pat` does not occur). -/
def takeBefore (pat : PyStr) : PyStr → PyStr
  | [] => []
  | c :: rest => if pat <+: (c :: rest) then [] else c :: takeBefore pat rest

/-- A chat message dict `{"role": ..., "content": ...}`. -/
structure Msg where
  role : String
  content : PyStr
deriving DecidableEq

/-- The fields of `app.config.settings.settings` read by the studied code. -/
structure Settings where
  hf_max_tokens : Nat
  max_context_tokens : Nat
deriving DecidableEq

/-! ### Response sanitizer (`AIService._clean_response`)

The five successive reassignments of the local variable `cleaned` in the
source are embedded as the stages `clean_stage1` .. `clean_stage5`, followed
by the placeholder substitution (`clean_core`) and the length cap
(`_clean_response`). -/

/-- The ChatML open marker. -/
def imStartTok : PyStr := "<|im_start|>".data

/-- The ChatML close marker. -/
def imEndTok : PyStr := "<|im_end|>".data

/-- The leaked-user-turn marker searched for by `_clean_response`. -/
def imStartUserTok : PyStr := "<|im_start|>user".data

/-- The bare role label stripped from the front of a response. -/
def assistantLabel : PyStr := "assistant\n".data

/-- The `unwanted_prefixes` list of `_clean_response`. -/
def unwanted_prefixes : List PyStr :=
  ["Human:".data, "Assistant:".data, "Bot:".data, "AI:".data, "User:".data]

/-- The fixed non-empty placeholder substituted for an all-artifact response. -/
def placeholder_text : PyStr := "Hey there! 😊 What\u0027s on your mind?".data

/-- One iteration of the `for prefix in unwanted_prefixes` loop:
`if cleaned.startswith(p): cleaned = cleaned[len(p):].strip()`. -/
def strip_one (s : PyStr) (p : PyStr) : PyStr :=
  if p <+: s then stripL (s.drop p.length) else s

/-- `cleaned = response.replace("<|im_start|>", "").replace("<|im_end|>", "").strip()` -/
def clean_stage1 (response : PyStr) : PyStr :=
  stripL (replaceAll imEndTok [] (replaceAll imStartTok [] response))

/-- `if cleaned.startswith("assistant\n"): cleaned = cleaned[10:].strip()` -/
def clean_stage2 (response : PyStr) : PyStr :=
  if assistantLabel <+: clean_stage1 response then stripL ((clean_stage1 response).drop 10)
  else clean_stage1 response

/-- `if "<|im_start|>user" in cleaned: cleaned = cleaned.split("<|im_start|>user")[0].strip()` -/
def clean_stage3 (response : PyStr) : PyStr :=
  if imStartUserTok <:+: clean_stage2 response then
    stripL (takeBefore imStartUserTok (clean_stage2 response))
  else clean_stage2 response

/-- The `for prefix in unwanted_prefixes` loop. -/
def clean_stage4 (response : PyStr) : PyStr :=
  unwanted_prefixes.foldl strip_one (clean_stage3 response)

/-- `cleaned = cleaned.strip()` -/
def clean_stage5 (response : PyStr) : PyStr :=
  stripL (clean_stage4 response)

/-- `if not cleaned: cleaned = "Hey there! 😊 What\u0027s on your mind?"` -/
def clean_core (response : PyStr) : PyStr :=
  if clean_stage5 response = [] then placeholder_text else clean_stage5 response

/-- `AIService._clean_response`: the full sanitizer, ending with
`if len(cleaned) > 2000: cleaned = cleaned[:1997] + "..."`. -/
def _clean_response (response : PyStr) : PyStr :=
  if 2000 < (clean_core response).length then (clean_core response).take 1997 ++ "...".data
  else clean_core response

/-! ### Exceptions, HTTP dispatch and the tenacity retry wrapper
(`AIService._make_api_request`) -/

/-- The exception types that can arise in `_make_api_request`:
the `AIServiceError` hierarchy of `ai_service.py`, the `httpx` transport
exceptions, and `tenacity.RetryError`. -/
inductive PyExc
  | aiServiceError
  | modelUnavailableError
  | rateLimitExceededError
  | tokenLimitExceededError
  | httpxTimeout
  | httpxRequestError
  | httpxHTTPStatusError (status : Nat)
  | retryError
deriving DecidableEq

/-- One element of the normalized response list `[{"generated_text": ...}]`
(a missing `generated_text` key is the empty string, as read by `.get`). -/
structure GenEntry where
  generated_text : PyStr
deriving DecidableEq

/-- The normalized body of a 200 response. -/
abbrev RespData := List GenEntry

/-- What one HTTP dispatch (`self.client.post`) can produce: a received
response with a status code and (already JSON-decoded and normalized) body,
a connection-level failure (`httpx.RequestError`), or a timeout
(`httpx.TimeoutException`). -/
inductive DispatchResult
  | response (status : Nat) (body : RespData)
  | connectionError
  | timeout
deriving DecidableEq

/-- The `try:` block of `_make_api_request` (lines 513-568): post the
request, then classify the status code. `200` returns the body; the handled
error statuses raise the exceptions shown; any other non-2xx status reaches
`response.raise_for_status()`, which raises `httpx.HTTPStatusError`; a 2xx
status other than 200 makes `raise_for_status` a no-op, so control falls off
the end of the function and `None` is returned. -/
def tryBody : DispatchResult → Except PyExc (Option RespData)
  | DispatchResult.timeout => Except.error PyExc.httpxTimeout
  | DispatchResult.connectionError => Except.error PyExc.httpxRequestError
  | DispatchResult.response status body =>
    if status = 200 then Except.ok (some body)
    else if status = 429 then Except.error PyExc.rateLimitExceededError
    else if status = 503 then Except.error PyExc.modelUnavailableError
    else if status = 401 ∨ status = 403 then Except.error PyExc.aiServiceError
    else if status = 400 then Except.error PyExc.aiServiceError
    else if status = 404 then Except.error PyExc.aiServiceError
    else if 200 ≤ status ∧ status < 300 then Except.ok none
    else Except.error (PyExc.httpxHTTPStatusError status)

/-- The `except` clauses of `_make_api_request` (lines 570-586), applied to
an exception escaping the `try:` block, in source order:
`httpx.TimeoutException → ModelUnavailableError`,
`httpx.RequestError → AIServiceError`,
`httpx.HTTPStatusError → RateLimitExceededError / ModelUnavailableError /
AIServiceError` by status, and the final catch-all
`except Exception → AIServiceError` — which also catches the typed
`AIServiceError` subclasses raised by the status classification above. -/
def except_clauses : PyExc → PyExc
  | PyExc.httpxTimeout => PyExc.modelUnavailableError
  | PyExc.httpxRequestError => PyExc.aiServiceError
  | PyExc.httpxHTTPStatusError status =>
    if status = 429 then PyExc.rateLimitExceededError
    else if status = 503 then PyExc.modelUnavailableError
    else PyExc.aiServiceError
  | _ => PyExc.aiServiceError

/-- One full attempt of the decorated function body: run the `try:` block on
the dispatch outcome and route any exception through the `except` clauses. -/
def attempt_once (d : DispatchResult) : Except PyExc (Option RespData) :=
  match tryBody d with
  | Except.ok v => Except.ok v
  | Except.error e => Except.error (except_clauses e)

/-- The tenacity predicate
`retry_if_exception_type((httpx.RequestError, httpx.TimeoutException))`:
only instances of those two transport exception classes are retried. -/
def is_retryable_exc : PyExc → Bool
  | PyExc.httpxTimeout => true
  | PyExc.httpxRequestError => true
  | _ => false

/-- The tenacity driver loop for `stop_after_attempt`: `attemptsMade` counts
finished attempts, the second argument is the attempts still allowed. A
successful attempt returns its value; a failed attempt is retried only when
`is_retryable_exc` holds and the stop condition has not been reached;
exhausting the attempt budget on retryable failures raises
`tenacity.RetryError`; a non-retryable exception is re-raised at once. The
result records the surfaced outcome and the number of dispatches made. -/
def tenacity_run (dispatch : Nat → DispatchResult) :
    Nat → Nat → Except PyExc (Option RespData) × Nat
  | attemptsMade, 0 => (Except.error PyExc.retryError, attemptsMade)
  | attemptsMade, remaining + 1 =>
    match attempt_once (dispatch attemptsMade) with
    | Except.ok v => (Except.ok v, attemptsMade + 1)
    | Except.error e =>
      if is_retryable_exc e then
        if remaining = 0 then (Except.error PyExc.retryError, attemptsMade + 1)
        else tenacity_run dispatch (attemptsMade + 1) remaining
      else (Except.error e, attemptsMade + 1)

/-- `_make_api_request` under its decorator
`@retry(stop=stop_after_attempt(3), wait=wait_exponential(...), retry=retry_if_exception_type((httpx.RequestError, httpx.TimeoutException)))`:
up to 3 attempts over the given sequence of dispatch outcomes. Returns the
surfaced result and the number of HTTP dispatches actually made. -/
def _make_api_request_model (dispatch : Nat → DispatchResult) :
    Except PyExc (Option RespData) × Nat :=
  tenacity_run dispatch 0 3

/-! ### Token counting (`AIService.count_tokens`) -/

/-- `AIService.count_tokens`. The optional tokenizer is a fallible encoder
returning a token-id list; `None` means no tokenizer is loaded. The primary
path is wrapped in `try: ... except Exception: ...` whose handler falls back
to the character estimate `len(text) // 4`, so the function itself never
propagates an exception — hence the `Except.ok` result type is always
inhabited in the ok branch. -/
def count_tokens_impl (tokenizer : Option (PyStr → Except PyExc (List Nat)))
    (text : PyStr) : Except PyExc Nat :=
  match tokenizer with
  | none => Except.ok (text.length / 4)
  | some enc =>
    match enc text with
    | Except.ok tokens => Except.ok tokens.length
    | Except.error _ => Except.ok (text.length / 4)

/-! ### Response extraction in `generate_response` (lines 635-655) -/

/-- The response-processing tail of `AIService.generate_response`: given the
value returned by `_make_api_request` (a normalized list, or `None` for a
2xx-but-not-200 fall-through), check the shape, extract
`response_data[0].get("generated_text", "").strip()`, raise
`AIServiceError("Empty response from AI model")` when that text is empty,
and otherwise return `_clean_response` of it. -/
def generate_response_post (response_data : Option RespData) : Except PyExc PyStr :=
  match response_data with
  | some (entry :: _) =>
    if stripL entry.generated_text = [] then Except.error PyExc.aiServiceError
    else Except.ok (_clean_response (stripL entry.generated_text))
  | _ => Except.error PyExc.aiServiceError

/-! ### Context window manager (`AIService._optimize_chat_history_for_context`) -/

/-- `reserved_tokens = settings.hf_max_tokens + 100`. -/
def opt_reserved (st : Settings) : Int := st.hf_max_tokens + 100

/-- The local `available_tokens` of `_optimize_chat_history_for_context`:
`max_context_tokens - system_tokens - current_message_tokens - reserved_tokens`. -/
def opt_available (st : Settings)
    (system_tokens current_message_tokens max_context_tokens : Nat) : Int :=
  (max_context_tokens : Int) - system_tokens - current_message_tokens - opt_reserved st

/-- The `for i, msg in enumerate(reversed(chat_history))` accumulation loop:
skip a message whose role is not user/assistant (`continue`), include a
message only when `used_tokens + msg_tokens <= available_tokens`, and `break`
at the first message that would overflow. The list argument is the
newest-first history; the accumulator is `used_tokens`. -/
def optimize_loop (cnt : PyStr → Nat) (available_tokens : Int) :
    List Msg → Int → List Msg
  | [], _ => []
  | msg :: rest, used_tokens =>
    if msg.role = "user" ∨ msg.role = "assistant" then
      if used_tokens + (cnt msg.content : Int) ≤ available_tokens then
        msg :: optimize_loop cnt available_tokens rest (used_tokens + (cnt msg.content : Int))
      else []
    else optimize_loop cnt available_tokens rest used_tokens

/-- `AIService._optimize_chat_history_for_context`: empty history returns
`[]`; a non-positive token budget returns `[]`; otherwise run the
newest-first accumulation loop and reverse the result back to chronological
order. -/
def _optimize_chat_history_for_context (cnt : PyStr → Nat) (st : Settings)
    (chat_history : List Msg)
    (system_tokens current_message_tokens max_context_tokens : Nat) : List Msg :=
  if chat_history = [] then []
  else if opt_available st system_tokens current_message_tokens max_context_tokens ≤ 0 then []
  else
    (optimize_loop cnt (opt_available st system_tokens current_message_tokens max_context_tokens)
      chat_history.reverse 0).reverse

/-- Total token count of a selection, `sum(count(t.content) for t in l)`. -/
def sumTokens (cnt : PyStr → Nat) (l : List Msg) : Nat :=
  (l.map fun m => cnt m.content).sum

/-! ### Prompt assembler, raw-completion variant (`AIService.build_chat_prompt`)
using `CHAT_TEMPLATES` of `app/config/prompts.py`. -/

/-- `CHAT_TEMPLATES["system"].format(content=c)`. -/
def tmpl_system (content : PyStr) : PyStr :=
  "<|im_start|>system\n".data ++ content ++ imEndTok

/-- `CHAT_TEMPLATES["user"].format(content=c)`. -/
def tmpl_user (content : PyStr) : PyStr :=
  "<|im_start|>user\n".data ++ content ++ imEndTok

/-- `CHAT_TEMPLATES["assistant"].format(content=c)`. -/
def tmpl_assistant (content : PyStr) : PyStr :=
  "<|im_start|>assistant\n".data ++ content ++ imEndTok

/-- `CHAT_TEMPLATES["assistant_prefix"]`. -/
def tmpl_assistant_open : PyStr := "<|im_start|>assistant\n".data

/-- The `system_content` local of `build_chat_prompt`: the base persona
prompt, extended with the preferences line when `user_preferences` is truthy
(present and non-empty). -/
def bcp_system_content (base_prompt : PyStr) (user_preferences : Option PyStr) : PyStr :=
  match user_preferences with
  | none => base_prompt
  | some p =>
    if p = [] then base_prompt
    else base_prompt ++ "\n\nUser preferences to keep in mind: ".data ++ p

/-- The `history_parts` local: walk the history newest first and render each
user/assistant turn through its template (other roles are dropped). -/
def bcp_history_parts (chat_history : List Msg) : List PyStr :=
  chat_history.reverse.filterMap fun m =>
    if m.role = "user" then some (tmpl_user m.content)
    else if m.role = "assistant" then some (tmpl_assistant m.content)
    else none

/-- `base_tokens = count_tokens(prompt_parts[0] + current_user_msg + assistant_prefix)`. -/
def bcp_base_tokens (cnt : PyStr → Nat) (base_prompt : PyStr)
    (user_preferences : Option PyStr) (user_message : PyStr) : Nat :=
  cnt (tmpl_system (bcp_system_content base_prompt user_preferences)
    ++ tmpl_user user_message ++ tmpl_assistant_open)

/-- `available_tokens = settings.max_context_tokens - base_tokens - settings.hf_max_tokens - 100`. -/
def bcp_available (cnt : PyStr → Nat) (st : Settings) (base_prompt : PyStr)
    (user_preferences : Option PyStr) (user_message : PyStr) : Int :=
  (st.max_context_tokens : Int) - bcp_base_tokens cnt base_prompt user_preferences user_message
    - st.hf_max_tokens - 100

/-- The `for i, history_part in enumerate(history_parts)` accumulation loop
of `build_chat_prompt`: include a part only when
`current_tokens + part_tokens <= available_tokens`, `break` at the first
part that would overflow. -/
def history_fit_loop (cnt : PyStr → Nat) (available_tokens : Int) :
    List PyStr → Int → List PyStr
  | [], _ => []
  | part :: rest, current_tokens =>
    if current_tokens + (cnt part : Int) ≤ available_tokens then
      part :: history_fit_loop cnt available_tokens rest (current_tokens + (cnt part : Int))
    else []

/-- The `used_history` local after the final `used_history.reverse()`:
the accepted newest-first parts, back in chronological order. -/
def bcp_used_history (cnt : PyStr → Nat) (st : Settings) (base_prompt : PyStr)
    (user_preferences : Option PyStr) (user_message : PyStr)
    (chat_history : List Msg) : List PyStr :=
  (history_fit_loop cnt (bcp_available cnt st base_prompt user_preferences user_message)
    (bcp_history_parts chat_history) 0).reverse

/-- Total token count of a list of rendered parts. -/
def sumParts (cnt : PyStr → Nat) (l : List PyStr) : Nat := (l.map cnt).sum

/-- `AIService.build_chat_prompt`: assemble the final prompt from the
selected history and return it with its recomputed token count. -/
def build_chat_prompt (cnt : PyStr → Nat) (st : Settings) (base_prompt : PyStr)
    (user_message : PyStr) (chat_history : List Msg)
    (user_preferences : Option PyStr) : PyStr × Nat :=
  let head := tmpl_system (bcp_system_content base_prompt user_preferences)
  let used := bcp_used_history cnt st base_prompt user_preferences user_message chat_history
  let final_prompt :=
    if used ≠ [] then
      head ++ "\n\n".data ++ List.intercalate "\n".data used ++ "\n".data
        ++ tmpl_user user_message ++ "\n".data ++ tmpl_assistant_open
    else
      head ++ "\n\n".data ++ tmpl_user user_message ++ "\n".data ++ tmpl_assistant_open
  (final_prompt, cnt final_prompt)

/-! ### Prompt assembler, structured-turns variant
(`build_personalized_system_prompt` of `app/config/prompts.py` and
`AIService._build_openai_messages`). -/

/-- The `preferences_section` f-string of `build_personalized_system_prompt`
(applied to the already-stripped preferences text). -/
def preferences_section (p : PyStr) : PyStr :=
  "\n\n## User Profile & Preferences\n".data ++ p
    ++ "\n\n**CRITICAL INSTRUCTIONS**: You MUST actively use this information:\n- Reference their specific interests (programming, anime, etc.) in your responses\n- Mention their name and personal details they\u0027ve shared\n- Connect new topics to their established preferences\n- Show that you remember and care about what they\u0027ve told you\n- Ask follow-up questions based on their background and interests\n- Adapt your tone and topics to match their personality (introvert, deep conversations, etc.)\n- Make every response feel personally tailored to them".data

/-- `build_personalized_system_prompt`: append the preferences section when
`user_preferences and user_preferences.strip()` is truthy. -/
def build_personalized_system_prompt (base_prompt : PyStr)
    (user_preferences : Option PyStr) : PyStr :=
  match user_preferences with
  | none => base_prompt
  | some p =>
    if p ≠ [] ∧ stripL p ≠ [] then base_prompt ++ preferences_section (stripL p)
    else base_prompt

/-- `AIService._build_openai_messages`: one system message, then the
context-optimized history filtered to user/assistant roles, then the current
user message. The source passes `max_context_tokens=8000` explicitly. -/
def _build_openai_messages (cnt : PyStr → Nat) (st : Settings) (base_prompt : PyStr)
    (user_preferences : Option PyStr) (user_message : PyStr)
    (chat_history : List Msg) : List Msg :=
  Msg.mk "system" (build_personalized_system_prompt base_prompt user_preferences)
    :: ((_optimize_chat_history_for_context cnt st chat_history
          (cnt (build_personalized_system_prompt base_prompt user_preferences))
          (cnt user_message) 8000).filter
          (fun m => m.role == "user" || m.role == "assistant")
      ++ [Msg.mk "user" user_message])

/-! ## Helper lemmas -/

/-- The placeholder branch of `clean_core` keeps the result non-empty. -/
theorem clean_core_ne_nil (x : PyStr) : clean_core x ≠ [] := by
  unfold clean_core
  split_ifs with h
  · decide
  · exact h

/-- `_clean_response` never returns the empty string. -/
theorem clean_response_ne_nil (x : PyStr) : _clean_response x ≠ [] := by
  unfold _clean_response
  split_ifs with h
  · intro hc
    exact absurd (List.append_eq_nil.mp hc).2 (by decide)
  · exact clean_core_ne_nil x

/-- `_clean_response` never returns more than 2000 characters. -/
theorem clean_response_length_le (x : PyStr) : (_clean_response x).length ≤ 2000 := by
  unfold _clean_response
  split_ifs with h
  · rw [List.length_append, List.length_take]
    have h3 : ("...".data : PyStr).length = 3 := by decide
    have hm : min 1997 (clean_core x).length ≤ 1997 := min_le_left _ _
    omega
  · omega

/-- `replaceAllAux` is the identity on a string in which the pattern does
not occur. -/
theorem replaceAllAux_no_occurrence (pat rep : PyStr) :
    ∀ (fuel : Nat) (s : PyStr), ¬ pat <:+: s → replaceAllAux pat rep fuel s = s := by
  intro fuel
  induction fuel with
  | zero => intro s _; rfl
  | succ n ih =>
    intro s h
    cases s with
    | nil => rfl
    | cons c rest =>
      have hp : ¬ pat <+: (c :: rest) := by
        intro hpre
        obtain ⟨t, ht⟩ := hpre
        exact h ⟨[], t, by simpa using ht⟩
      have hrest : ¬ pat <:+: rest := by
        intro hinf
        obtain ⟨u, v, huv⟩ := hinf
        exact h ⟨c :: u, v, by simp [huv]⟩
      rw [replaceAllAux, if_neg fun hc => hp hc.2, ih rest hrest]

/-- Folding the unwanted-prefixes pass over a string that starts with none
of the prefixes is the identity. -/
theorem foldl_strip_one_id (y : PyStr) (l : List PyStr)
    (h : ∀ p ∈ l, strip_one y p = y) : l.foldl strip_one y = y := by
  induction l with
  | nil => rfl
  | cons a t ih =>
    rw [List.foldl_cons, h a (List.mem_cons_self a t)]
    exact ih fun p hp => h p (List.mem_cons_of_mem a hp)

/-- If none of the sanitizer's patterns occur in `y`, `y` starts with no
unwanted role label, `y` is already whitespace-trimmed and non-empty, then
the whole cleaning pipeline up to the placeholder substitution leaves `y`
unchanged. -/
theorem clean_core_id_of_no_artifacts (y : PyStr)
    (h1 : ¬ imStartTok <:+: y) (h2 : ¬ imEndTok <:+: y)
    (h3 : ¬ assistantLabel <+: y)
    (h4 : ∀ p ∈ unwanted_prefixes, ¬ p <+: y)
    (h5 : stripL y = y) (h6 : y ≠ []) :
    clean_core y = y := by
  have e1 : clean_stage1 y = y := by
    unfold clean_stage1 replaceAll
    rw [replaceAllAux_no_occurrence _ _ _ _ h1, replaceAllAux_no_occurrence _ _ _ _ h2, h5]
  have hiu : ¬ imStartUserTok <:+: y := by
    intro hinf
    obtain ⟨u, v, huv⟩ := hinf
    refine h1 ⟨u, "user".data ++ v, ?_⟩
    have he : imStartUserTok = imStartTok ++ "user".data := by decide
    rw [he] at huv
    simpa [List.append_assoc] using huv
  have e2 : clean_stage2 y = y := by
    unfold clean_stage2
    rw [e1, if_neg h3]
  have e3 : clean_stage3 y = y := by
    unfold clean_stage3
    rw [e2, if_neg hiu]
  have e4 : clean_stage4 y = y := by
    unfold clean_stage4
    rw [e3]
    exact foldl_strip_one_id y unwanted_prefixes fun p hp => by
      unfold strip_one
      rw [if_neg (h4 p hp)]
  have e5 : clean_stage5 y = y := by
    unfold clean_stage5
    rw [e4]
    exact h5
  unfold clean_core
  rw [e5, if_neg h6]

/-- Every character of a pattern occurring inside `replicate n 'A'` is `'A'`. -/
theorem eq_A_of_mem_of_infix_replicate {pat : PyStr} {n : Nat} {c : Char}
    (h : pat <:+: List.replicate n 'A') (hc : c ∈ pat) : c = 'A' := by
  obtain ⟨u, v, huv⟩ := h
  refine List.eq_of_mem_replicate (n := n) ?_
  rw [← huv]
  simp [hc]

/-- Stripping whitespace from the all-`'A'` string is the identity. -/
theorem stripL_replicate_A (n : Nat) : stripL (List.replicate n 'A') = List.replicate n 'A' := by
  have hd : ∀ m : Nat, List.dropWhile pyIsSpace (List.replicate m 'A') = List.replicate m 'A' := by
    intro m
    cases m with
    | zero => rfl
    | succ k =>
      rw [List.replicate_succ, List.dropWhile_cons, if_neg (by decide)]
  unfold stripL
  rw [hd n, List.reverse_replicate, hd n, List.reverse_replicate]

/-- The all-`'A'` string of a given length is not empty when the length is not 0. -/
theorem replicate_A_ne_nil {n : Nat} (h : n ≠ 0) : List.replicate n 'A' ≠ [] := by
  intro hc
  have := congrArg List.length hc
  rw [List.length_replicate] at this
  exact h this

/-- **C6.** For every string input `x`, including the empty string,
`_clean_response x` is a non-empty string whose length is at most the
configured maximum output length of 2000 characters; whenever the cleaned
text exceeds that maximum, the result is its hard truncation to 1997
characters with the truncation marker `"..."` appended. -/
theorem clean_response_nonempty_and_bounded (x : PyStr) :
    _clean_response x ≠ [] ∧ (_clean_response x).length ≤ 2000 ∧
      (2000 < (clean_core x).length →
        _clean_response x = (clean_core x).take 1997 ++ "...".data) := by
  refine ⟨clean_response_ne_nil x, clean_response_length_le x, fun h => ?_⟩
  unfold _clean_response
  rw [if_pos h]

/-- Witness for C6 at the concrete 2100-character input `replicate 2100 'A'`,
whose cleaned text exceeds the maximum, so the truncation clause fires. -/
theorem clean_response_nonempty_and_bounded_witness :
    _clean_response (List.replicate 2100 'A') ≠ [] ∧
      (_clean_response (List.replicate 2100 'A')).length ≤ 2000 ∧
      _clean_response (List.replicate 2100 'A')
        = (clean_core (List.replicate 2100 'A')).take 1997 ++ "...".data := by
  have hcolon : ∀ p ∈ unwanted_prefixes, (':' : Char) ∈ p := by decide
  have hcore : clean_core (List.replicate 2100 'A') = List.replicate 2100 'A' := by
    refine clean_core_id_of_no_artifacts _ ?_ ?_ ?_ ?_ (stripL_replicate_A 2100)
      (replicate_A_ne_nil (by omega))
    · intro h
      exact absurd
        (eq_A_of_mem_of_infix_replicate h (show ('<' : Char) ∈ imStartTok by decide))
        (by decide)
    · intro h
      exact absurd
        (eq_A_of_mem_of_infix_replicate h (show ('<' : Char) ∈ imEndTok by decide))
        (by decide)
    · intro h
      obtain ⟨t, ht⟩ := h
      have hin : assistantLabel <:+: List.replicate 2100 'A' :=
        ⟨[], t, by rw [List.nil_append]; exact ht⟩
      exact absurd
        (eq_A_of_mem_of_infix_replicate hin (show ('a' : Char) ∈ assistantLabel by decide))
        (by decide)
    · intro p hp h
      obtain ⟨t, ht⟩ := h
      have hin : p <:+: List.replicate 2100 'A' := ⟨[], t, by rw [List.nil_append]; exact ht⟩
      exact absurd (eq_A_of_mem_of_infix_replicate hin (hcolon p hp)) (by decide)
  obtain ⟨h1, h2, h3⟩ := clean_response_nonempty_and_bounded (List.replicate 2100 'A')
  refine ⟨h1, h2, h3 ?_⟩
  rw [hcore, List.length_replicate]
  omega

/-- **C7 (counterexample).** The sanitizer is not idempotent: on the input
`"Human:Human:hi"` the first pass strips only the outer `"Human:"` label
(each unwanted role label is tested once per pass, in a fixed order), so the
result `"Human:hi"` still starts with an unwanted label and a second pass
strips it again. -/
theorem clean_response_not_idempotent :
    _clean_response (_clean_response "Human:Human:hi".data)
      ≠ _clean_response "Human:Human:hi".data := by decide

/-- **C7 (amended).** The sanitizer is idempotent on every input whose
sanitized output contains no ChatML marker, does not start with the bare
`"assistant\n"` label or any unwanted role label, and is already
whitespace-trimmed; a second pass is the identity there. (Idempotence fails
in general, see the counterexample: one pass strips each unwanted label at
most once, so an output can itself still start with an unwanted label.) -/
theorem clean_response_conditional_idempotent (x : PyStr)
    (h1 : ¬ imStartTok <:+: _clean_response x)
    (h2 : ¬ imEndTok <:+: _clean_response x)
    (h3 : ¬ assistantLabel <+: _clean_response x)
    (h4 : ∀ p ∈ unwanted_prefixes, ¬ p <+: _clean_response x)
    (h5 : stripL (_clean_response x) = _clean_response x) :
    _clean_response (_clean_response x) = _clean_response x := by
  have hne := clean_response_ne_nil x
  have hle := clean_response_length_le x
  have hcore : clean_core (_clean_response x) = _clean_response x :=
    clean_core_id_of_no_artifacts _ h1 h2 h3 h4 h5 hne
  rw [show _clean_response (_clean_response x)
        = if 2000 < (clean_core (_clean_response x)).length
          then (clean_core (_clean_response x)).take 1997 ++ "...".data
          else clean_core (_clean_response x) from rfl]
  rw [hcore, if_neg (by omega)]

/-- Witness for C7 (amended) at the artifact-free input `"hello"`. -/
theorem clean_response_conditional_idempotent_witness :
    _clean_response (_clean_response "hello".data) = _clean_response "hello".data :=
  clean_response_conditional_idempotent "hello".data (by decide) (by decide) (by decide)
    (by decide) (by decide)

/-- Equality of embedded fallible results is decidable. -/
instance (priority := low) exceptDecEq {ε α : Type} [DecidableEq ε] [DecidableEq α] :
    DecidableEq (Except ε α)
  | Except.ok a, Except.ok b =>
    if h : a = b then isTrue (by rw [h]) else isFalse (by simpa using h)
  | Except.error a, Except.error b =>
    if h : a = b then isTrue (by rw [h]) else isFalse (by simpa using h)
  | Except.ok _, Except.error _ => isFalse (by simp)
  | Except.error _, Except.ok _ => isFalse (by simp)

/-- **C4 (counterexample).** When the backend returns a 2xx response whose
extracted `generated_text` is the empty string, `generate_response` raises
`AIServiceError("Empty response from AI model")` — it does not substitute
the placeholder and does not return success. -/
theorem empty_generation_raises :
    generate_response_post (some [GenEntry.mk []]) = Except.error PyExc.aiServiceError := by
  decide

/-- **C4 (amended).** An empty (after stripping) extracted `generated_text`
makes `generate_response` raise `AIServiceError` before the sanitizer runs;
a non-empty extracted text always yields a successful, non-empty result of
at most 2000 characters (the placeholder substitution of `_clean_response`
applies only on this path, when a non-empty raw text cleans to nothing). -/
theorem empty_generation_behavior :
    (∀ (entry : GenEntry) (rest : RespData), stripL entry.generated_text = [] →
      generate_response_post (some (entry :: rest)) = Except.error PyExc.aiServiceError)
    ∧ (∀ (entry : GenEntry) (rest : RespData), stripL entry.generated_text ≠ [] →
      ∃ t, generate_response_post (some (entry :: rest)) = Except.ok t
        ∧ t ≠ [] ∧ t.length ≤ 2000) := by
  have e : ∀ (entry : GenEntry) (rest : RespData),
      generate_response_post (some (entry :: rest))
        = if stripL entry.generated_text = [] then Except.error PyExc.aiServiceError
          else Except.ok (_clean_response (stripL entry.generated_text)) :=
    fun _ _ => rfl
  constructor
  · intro entry rest h
    rw [e, if_pos h]
  · intro entry rest h
    refine ⟨_clean_response (stripL entry.generated_text), ?_,
      clean_response_ne_nil _, clean_response_length_le _⟩
    rw [e, if_neg h]

/-- Witness for C4 (amended): a whitespace-only `generated_text` raises,
and the text `"ok"` produces a bounded non-empty success. -/
theorem empty_generation_behavior_witness :
    generate_response_post (some [GenEntry.mk " ".data]) = Except.error PyExc.aiServiceError
    ∧ ∃ t, generate_response_post (some [GenEntry.mk "ok".data]) = Except.ok t
        ∧ t ≠ [] ∧ t.length ≤ 2000 :=
  ⟨empty_generation_behavior.1 (GenEntry.mk " ".data) [] (by decide),
   empty_generation_behavior.2 (GenEntry.mk "ok".data) [] (by decide)⟩

/-- **C8 (counterexample).** With no tokenizer loaded, `count_tokens` is not
`ceil(len(text) / 4)`: on the 3-character input `"abc"` the code computes
`3 // 4 = 0`, while the ceiling is `(3 + 3) / 4 = 1`. -/
theorem fallback_count_not_ceil :
    count_tokens_impl none "abc".data ≠ Except.ok (("abc".data.length + 3) / 4) := by
  decide

/-- **C8 (amended).** With no tokenizer loaded, `count_tokens(text)` is the
floor `len(text) // 4`: it returns (without raising) the unique `n` with
`4 * n ≤ len(text) < 4 * n + 4`; as a pure function of the text it is
deterministic and performs no I/O. -/
theorem fallback_count_floor (text : PyStr) :
    ∃ n : Nat, count_tokens_impl none text = Except.ok n
      ∧ 4 * n ≤ text.length ∧ text.length < 4 * n + 4 := by
  refine ⟨text.length / 4, rfl, ?_, ?_⟩ <;> omega

/-- **C9.** `count_tokens` is total: for every (possibly failing) tokenizer
and every text it returns a value and never propagates an exception — its
result is always `Except.ok` of a natural number; moreover every failure of
the primary tokenizer path is routed to the character-estimate fallback. -/
theorem count_tokens_never_raises :
    (∀ (tokenizer : Option (PyStr → Except PyExc (List Nat))) (text : PyStr),
      ∃ n : Nat, count_tokens_impl tokenizer text = Except.ok n)
    ∧ (∀ (enc : PyStr → Except PyExc (List Nat)) (text : PyStr) (e : PyExc),
      enc text = Except.error e →
      count_tokens_impl (some enc) text = Except.ok (text.length / 4)) := by
  have eq2 : ∀ (enc : PyStr → Except PyExc (List Nat)) (text : PyStr),
      count_tokens_impl (some enc) text
        = match enc text with
          | Except.ok tokens => Except.ok tokens.length
          | Except.error _ => Except.ok (text.length / 4) := fun _ _ => rfl
  constructor
  · intro tokenizer text
    match tokenizer with
    | none => exact ⟨text.length / 4, rfl⟩
    | some enc =>
      match h : enc text with
      | Except.ok tokens => exact ⟨tokens.length, by rw [eq2, h]⟩
      | Except.error e => exact ⟨text.length / 4, by rw [eq2, h]⟩
  · intro enc text e h
    rw [eq2, h]

/-- Witness for C9: a tokenizer that always fails is routed to the fallback
on the 4-character input `"abcd"`. -/
theorem count_tokens_never_raises_witness :
    (∃ n : Nat, count_tokens_impl none "abcd".data = Except.ok n)
    ∧ count_tokens_impl (some fun _ => Except.error PyExc.aiServiceError) "abcd".data
        = Except.ok ("abcd".data.length / 4) :=
  ⟨count_tokens_never_raises.1 none "abcd".data,
   count_tokens_never_raises.2 (fun _ => Except.error PyExc.aiServiceError) "abcd".data
     PyExc.aiServiceError rfl⟩

/-- The exception-mapping of the `except` clauses never produces one of the
transport exceptions that the tenacity predicate retries. -/
theorem except_clauses_not_retryable (e : PyExc) :
    is_retryable_exc (except_clauses e) = false := by
  cases e with
  | httpxHTTPStatusError status =>
    simp only [except_clauses]
    split_ifs <;> rfl
  | aiServiceError => rfl
  | modelUnavailableError => rfl
  | rateLimitExceededError => rfl
  | tokenLimitExceededError => rfl
  | httpxTimeout => rfl
  | httpxRequestError => rfl
  | retryError => rfl

/-- Every exception escaping one attempt of the decorated body has been
routed through the `except` clauses, hence is never retryable. -/
theorem attempt_once_error_not_retryable (d : DispatchResult) (e : PyExc)
    (h : attempt_once d = Except.error e) : is_retryable_exc e = false := by
  unfold attempt_once at h
  cases htb : tryBody d with
  | ok v => rw [htb] at h; exact absurd h (by simp)
  | error e0 =>
    rw [htb] at h
    have he : except_clauses e0 = e := by simpa using h
    rw [← he]
    exact except_clauses_not_retryable e0

/-- One unfolding step of the tenacity driver, for a positive attempt budget. -/
theorem tenacity_run_step (dispatch : Nat → DispatchResult) (a r : Nat) :
    tenacity_run dispatch a (r + 1)
      = match attempt_once (dispatch a) with
        | Except.ok v => (Except.ok v, a + 1)
        | Except.error e =>
          if is_retryable_exc e then
            if r = 0 then (Except.error PyExc.retryError, a + 1)
            else tenacity_run dispatch (a + 1) r
          else (Except.error e, a + 1) := rfl

/-- **C1 (behavior at the failing input).** The retry decorator of
`_make_api_request` is dead code: its predicate retries only
`httpx.RequestError` and `httpx.TimeoutException`, but the decorated body
catches exactly those exceptions and re-raises them as `AIServiceError`
(connection failure) and `ModelUnavailableError` (timeout). Therefore the
orchestrator never performs a second dispatch for any dispatch behavior,
and a persistent connection failure surfaces after exactly one attempt as
`AIServiceError` — not as `ModelUnavailableError` after retried
backoff-separated attempts (a persistent timeout also surfaces after one
attempt, as `ModelUnavailableError`). -/
theorem network_errors_surface_without_retry :
    (∀ dispatch : Nat → DispatchResult, (_make_api_request_model dispatch).2 = 1)
    ∧ _make_api_request_model (fun _ => DispatchResult.connectionError)
        = (Except.error PyExc.aiServiceError, 1)
    ∧ _make_api_request_model (fun _ => DispatchResult.timeout)
        = (Except.error PyExc.modelUnavailableError, 1) := by
  refine ⟨?_, rfl, rfl⟩
  intro dispatch
  show (tenacity_run dispatch 0 3).2 = 1
  rw [show (3 : Nat) = 2 + 1 from rfl, tenacity_run_step]
  cases h : attempt_once (dispatch 0) with
  | ok v => rfl
  | error e0 =>
    have hret := attempt_once_error_not_retryable (dispatch 0) e0 h
    simp [hret]

/-- **C3.** Whenever the backend returns an HTTP response at all with a
non-2xx status — any such status, including 5xx — the orchestrator performs
exactly one dispatch (zero retries): the response is classified immediately
inside the single attempt and surfaces as the typed service failure
`AIServiceError` (the generic upstream-error type of the taxonomy, and in
particular the one surfaced for an otherwise-unclassified status such as
500), never as a retryable transport exception, and the request is never
re-dispatched. -/
theorem no_retry_on_http_response (status : Nat) (body : RespData)
    (h : ¬ (200 ≤ status ∧ status < 300)) :
    _make_api_request_model (fun _ => DispatchResult.response status body)
      = (Except.error PyExc.aiServiceError, 1) := by
  have h200 : ¬ status = 200 := by omega
  have htb : ∃ e0, tryBody (DispatchResult.response status body) = Except.error e0
      ∧ except_clauses e0 = PyExc.aiServiceError := by
    simp only [tryBody]
    split_ifs with h1 h2 h3 h4 h5
    · exact ⟨PyExc.rateLimitExceededError, rfl, rfl⟩
    · exact ⟨PyExc.modelUnavailableError, rfl, rfl⟩
    · exact ⟨PyExc.aiServiceError, rfl, rfl⟩
    · exact ⟨PyExc.aiServiceError, rfl, rfl⟩
    · exact ⟨PyExc.aiServiceError, rfl, rfl⟩
    · refine ⟨PyExc.httpxHTTPStatusError status, rfl, ?_⟩
      simp only [except_clauses]
      rw [if_neg h1, if_neg h2]
  obtain ⟨e0, he0, hec⟩ := htb
  have hao : attempt_once (DispatchResult.response status body)
      = Except.error PyExc.aiServiceError := by
    unfold attempt_once
    rw [he0]
    show Except.error (except_clauses e0) = Except.error PyExc.aiServiceError
    rw [hec]
  show tenacity_run (fun _ => DispatchResult.response status body) 0 3
      = (Except.error PyExc.aiServiceError, 1)
  rw [show (3 : Nat) = 2 + 1 from rfl, tenacity_run_step]
  rw [hao]
  rfl

/-- Witness for C3 at a simulated HTTP 500 response: it surfaces after a
single dispatch as the generic typed failure. -/
theorem no_retry_on_http_response_witness :
    _make_api_request_model (fun _ => DispatchResult.response 500 [])
      = (Except.error PyExc.aiServiceError, 1) :=
  no_retry_on_http_response 500 [] (by omega)

/-- Summed token counts are invariant under reversal. -/
theorem sumTokens_reverse (cnt : PyStr → Nat) (l : List Msg) :
    sumTokens cnt l.reverse = sumTokens cnt l := by
  simp [sumTokens, List.map_reverse, List.sum_reverse]

/-- Summed part token counts are invariant under reversal. -/
theorem sumParts_reverse (cnt : PyStr → Nat) (l : List PyStr) :
    sumParts cnt l.reverse = sumParts cnt l := by
  simp [sumParts, List.map_reverse, List.sum_reverse]

/-- Loop invariant of the history accumulation loop of
`_optimize_chat_history_for_context`: starting below the budget, the used
total plus everything the loop admits stays within the budget. -/
theorem optimize_loop_sum_le (cnt : PyStr → Nat) (avail : Int) :
    ∀ (l : List Msg) (used : Int), used ≤ avail →
      used + (sumTokens cnt (optimize_loop cnt avail l used) : Int) ≤ avail := by
  intro l
  induction l with
  | nil =>
    intro used h
    simpa [optimize_loop, sumTokens] using h
  | cons m rest ih =>
    intro used h
    by_cases hr : m.role = "user" ∨ m.role = "assistant"
    · by_cases hf : used + (cnt m.content : Int) ≤ avail
      · have e : optimize_loop cnt avail (m :: rest) used
            = m :: optimize_loop cnt avail rest (used + (cnt m.content : Int)) := by
          simp only [optimize_loop, if_pos hr, if_pos hf]
        have hsum : (sumTokens cnt (m :: optimize_loop cnt avail rest
              (used + (cnt m.content : Int))) : Int)
            = (cnt m.content : Int) + (sumTokens cnt (optimize_loop cnt avail rest
              (used + (cnt m.content : Int))) : Int) := by
          simp [sumTokens]
        rw [e, hsum]
        have := ih (used + (cnt m.content : Int)) hf
        omega
      · have e : optimize_loop cnt avail (m :: rest) used = [] := by
          simp only [optimize_loop, if_pos hr, if_neg hf]
        rw [e]
        simpa [sumTokens] using h
    · have e : optimize_loop cnt avail (m :: rest) used
          = optimize_loop cnt avail rest used := by
        simp only [optimize_loop, if_neg hr]
      rw [e]
      exact ih used h

/-- Loop invariant of the accumulation loop of `build_chat_prompt`. -/
theorem history_fit_loop_sum_le (cnt : PyStr → Nat) (avail : Int) :
    ∀ (l : List PyStr) (cur : Int), cur ≤ avail →
      cur + (sumParts cnt (history_fit_loop cnt avail l cur) : Int) ≤ avail := by
  intro l
  induction l with
  | nil =>
    intro cur h
    simpa [history_fit_loop, sumParts] using h
  | cons p rest ih =>
    intro cur h
    by_cases hf : cur + (cnt p : Int) ≤ avail
    · have e : history_fit_loop cnt avail (p :: rest) cur
          = p :: history_fit_loop cnt avail rest (cur + (cnt p : Int)) := by
        simp only [history_fit_loop, if_pos hf]
      have hsum : (sumParts cnt (p :: history_fit_loop cnt avail rest
            (cur + (cnt p : Int))) : Int)
          = (cnt p : Int) + (sumParts cnt (history_fit_loop cnt avail rest
            (cur + (cnt p : Int))) : Int) := by
        simp [sumParts]
      rw [e, hsum]
      have := ih (cur + (cnt p : Int)) hf
      omega
    · have e : history_fit_loop cnt avail (p :: rest) cur = [] := by
        simp only [history_fit_loop, if_neg hf]
      rw [e]
      simpa [sumParts] using h

/-- **C2.** Budget invariant. Whenever the available-for-history budget is
positive at the start of selection, the selected history fits:
(a) in `_optimize_chat_history_for_context`,
`system_tokens + current_message_tokens + sum(selected) + reserved ≤ max_context_tokens`,
with `reserved = hf_max_tokens + 100`; and
(b) in `build_chat_prompt`,
`base_tokens + sum(selected parts) + hf_max_tokens + 100 ≤ max_context_tokens`.
Both accumulation loops never admit a turn that would push the running total
past the available budget, for every token counter. -/
theorem context_budget_invariant :
    (∀ (cnt : PyStr → Nat) (st : Settings) (chat_history : List Msg)
        (system_tokens current_message_tokens max_context_tokens : Nat),
      0 < opt_available st system_tokens current_message_tokens max_context_tokens →
      (system_tokens : Int) + (current_message_tokens : Int)
        + (sumTokens cnt (_optimize_chat_history_for_context cnt st chat_history
            system_tokens current_message_tokens max_context_tokens) : Int)
        + opt_reserved st ≤ (max_context_tokens : Int))
    ∧ (∀ (cnt : PyStr → Nat) (st : Settings) (base_prompt : PyStr)
        (user_preferences : Option PyStr) (user_message : PyStr) (chat_history : List Msg),
      0 < bcp_available cnt st base_prompt user_preferences user_message →
      (bcp_base_tokens cnt base_prompt user_preferences user_message : Int)
        + (sumParts cnt (bcp_used_history cnt st base_prompt user_preferences
            user_message chat_history) : Int)
        + (st.hf_max_tokens : Int) + 100 ≤ (st.max_context_tokens : Int)) := by
  constructor
  · intro cnt st chat_history sys cur cap h
    have hA : opt_available st sys cur cap
        = (cap : Int) - (sys : Int) - (cur : Int) - opt_reserved st := rfl
    have hR : opt_reserved st = (st.hf_max_tokens : Int) + 100 := rfl
    unfold _optimize_chat_history_for_context
    split_ifs with h0 h1
    · simp only [sumTokens, List.map_nil, List.sum_nil]
      omega
    · omega
    · rw [sumTokens_reverse]
      have hloop := optimize_loop_sum_le cnt
        (opt_available st sys cur cap) chat_history.reverse 0 (le_of_lt h)
      omega
  · intro cnt st base_prompt up user_message chat_history h
    have hA : bcp_available cnt st base_prompt up user_message
        = (st.max_context_tokens : Int)
          - (bcp_base_tokens cnt base_prompt up user_message : Int)
          - (st.hf_max_tokens : Int) - 100 := rfl
    unfold bcp_used_history
    rw [sumParts_reverse]
    have hloop := history_fit_loop_sum_le cnt
      (bcp_available cnt st base_prompt up user_message)
      (bcp_history_parts chat_history) 0 (le_of_lt h)
    omega

/-- Witness for C2 at concrete inputs: the fallback counter, default settings
`hf_max_tokens = 512`, `max_context_tokens = 8000`, an empty history and an
empty/short current message. -/
theorem context_budget_invariant_witness :
    (((0 : Nat) : Int) + ((0 : Nat) : Int)
      + (sumTokens (fun s => s.length / 4) (_optimize_chat_history_for_context
          (fun s => s.length / 4) (Settings.mk 512 8000) [] 0 0 8000) : Int)
      + opt_reserved (Settings.mk 512 8000) ≤ ((8000 : Nat) : Int))
    ∧ ((bcp_base_tokens (fun s => s.length / 4) [] none "hi".data : Int)
      + (sumParts (fun s => s.length / 4) (bcp_used_history (fun s => s.length / 4)
          (Settings.mk 512 8000) [] none "hi".data []) : Int)
      + ((Settings.mk 512 8000).hf_max_tokens : Int) + 100
      ≤ ((Settings.mk 512 8000).max_context_tokens : Int)) :=
  ⟨context_budget_invariant.1 (fun s => s.length / 4) (Settings.mk 512 8000) [] 0 0 8000
      (by decide),
   context_budget_invariant.2 (fun s => s.length / 4) (Settings.mk 512 8000) [] none
      "hi".data [] (by decide)⟩

/-- On a history whose roles are all user/assistant, the accumulation loop
of `_optimize_chat_history_for_context` keeps an initial run of its input:
it admits turns in order and stops permanently at the first overflow. -/
theorem optimize_loop_front (cnt : PyStr → Nat) (avail : Int) :
    ∀ (l : List Msg) (used : Int),
      (∀ m ∈ l, m.role = "user" ∨ m.role = "assistant") →
      ∃ t, optimize_loop cnt avail l used ++ t = l := by
  intro l
  induction l with
  | nil => exact fun _ _ => ⟨[], rfl⟩
  | cons m rest ih =>
    intro used hroles
    have hm : m.role = "user" ∨ m.role = "assistant" :=
      hroles m (List.mem_cons_self m rest)
    by_cases hf : used + (cnt m.content : Int) ≤ avail
    · obtain ⟨t, ht⟩ := ih (used + (cnt m.content : Int))
        (fun x hx => hroles x (List.mem_cons_of_mem m hx))
      refine ⟨t, ?_⟩
      have e : optimize_loop cnt avail (m :: rest) used
          = m :: optimize_loop cnt avail rest (used + (cnt m.content : Int)) := by
        simp only [optimize_loop, if_pos hm, if_pos hf]
      rw [e, List.cons_append, ht]
    · refine ⟨m :: rest, ?_⟩
      have e : optimize_loop cnt avail (m :: rest) used = [] := by
        simp only [optimize_loop, if_pos hm, if_neg hf]
      rw [e, List.nil_append]

/-- The accumulation loop of `build_chat_prompt` keeps an initial run of its
input list of rendered parts. -/
theorem history_fit_loop_front (cnt : PyStr → Nat) (avail : Int) :
    ∀ (l : List PyStr) (cur : Int), ∃ t, history_fit_loop cnt avail l cur ++ t = l := by
  intro l
  induction l with
  | nil => exact fun _ => ⟨[], rfl⟩
  | cons p rest ih =>
    intro cur
    by_cases hf : cur + (cnt p : Int) ≤ avail
    · obtain ⟨t, ht⟩ := ih (cur + (cnt p : Int))
      refine ⟨t, ?_⟩
      have e : history_fit_loop cnt avail (p :: rest) cur
          = p :: history_fit_loop cnt avail rest (cur + (cnt p : Int)) := by
        simp only [history_fit_loop, if_pos hf]
      rw [e, List.cons_append, ht]
    · refine ⟨p :: rest, ?_⟩
      have e : history_fit_loop cnt avail (p :: rest) cur = [] := by
        simp only [history_fit_loop, if_neg hf]
      rw [e, List.nil_append]

/-- **C5.** Recency priority. For every input history already filtered to
user/assistant turns, the selection of `_optimize_chat_history_for_context`
is a contiguous suffix of the input in chronological order: the walk runs
newest to oldest, admits a turn only while the budget allows, stops at the
first overflowing turn without skipping ahead or reordering, and is reversed
back to chronological order — and likewise the parts selected by
`build_chat_prompt` form a contiguous suffix of the chronologically ordered
rendered history parts. -/
theorem recency_contiguous_suffix :
    (∀ (cnt : PyStr → Nat) (st : Settings) (chat_history : List Msg)
        (system_tokens current_message_tokens max_context_tokens : Nat),
      (∀ m ∈ chat_history, m.role = "user" ∨ m.role = "assistant") →
      _optimize_chat_history_for_context cnt st chat_history system_tokens
        current_message_tokens max_context_tokens <:+ chat_history)
    ∧ (∀ (cnt : PyStr → Nat) (st : Settings) (base_prompt : PyStr)
        (user_preferences : Option PyStr) (user_message : PyStr) (chat_history : List Msg),
      bcp_used_history cnt st base_prompt user_preferences user_message chat_history
        <:+ (bcp_history_parts chat_history).reverse) := by
  constructor
  · intro cnt st chat_history sys cur cap hroles
    unfold _optimize_chat_history_for_context
    split_ifs with h0 h1
    · exact ⟨chat_history, List.append_nil _⟩
    · exact ⟨chat_history, List.append_nil _⟩
    · obtain ⟨t, ht⟩ := optimize_loop_front cnt (opt_available st sys cur cap)
        chat_history.reverse 0 (fun m hm => hroles m (List.mem_reverse.mp hm))
      refine ⟨t.reverse, ?_⟩
      have hrev := congrArg List.reverse ht
      rw [List.reverse_append, List.reverse_reverse] at hrev
      exact hrev
  · intro cnt st base_prompt up user_message chat_history
    obtain ⟨t, ht⟩ := history_fit_loop_front cnt
      (bcp_available cnt st base_prompt up user_message) (bcp_history_parts chat_history) 0
    unfold bcp_used_history
    refine ⟨t.reverse, ?_⟩
    have hrev := congrArg List.reverse ht
    rw [List.reverse_append] at hrev
    exact hrev

/-- Witness for C5 on a concrete two-turn user/assistant history. -/
theorem recency_contiguous_suffix_witness :
    (_optimize_chat_history_for_context (fun s => s.length / 4) (Settings.mk 512 8000)
        [Msg.mk "user" "hello".data, Msg.mk "assistant" "hi".data] 0 0 8000
      <:+ [Msg.mk "user" "hello".data, Msg.mk "assistant" "hi".data])
    ∧ (bcp_used_history (fun s => s.length / 4) (Settings.mk 512 8000) [] none "hi".data
        [Msg.mk "user" "hello".data]
      <:+ (bcp_history_parts [Msg.mk "user" "hello".data]).reverse) :=
  ⟨recency_contiguous_suffix.1 (fun s => s.length / 4) (Settings.mk 512 8000)
      [Msg.mk "user" "hello".data, Msg.mk "assistant" "hi".data] 0 0 8000 (by decide),
   recency_contiguous_suffix.2 (fun s => s.length / 4) (Settings.mk 512 8000) [] none
      "hi".data [Msg.mk "user" "hello".data]⟩

/-- Every turn admitted by the accumulation loop of
`_optimize_chat_history_for_context` has role user or assistant: other-role
turns go through the `continue` branch and are never selected. -/
theorem optimize_loop_roles (cnt : PyStr → Nat) (avail : Int) :
    ∀ (l : List Msg) (used : Int) (m : Msg), m ∈ optimize_loop cnt avail l used →
      m.role = "user" ∨ m.role = "assistant" := by
  intro l
  induction l with
  | nil => intro used m hm; exact absurd hm (List.not_mem_nil m)
  | cons x rest ih =>
    intro used m hm
    by_cases hr : x.role = "user" ∨ x.role = "assistant"
    · by_cases hf : used + (cnt x.content : Int) ≤ avail
      · have e : optimize_loop cnt avail (x :: rest) used
            = x :: optimize_loop cnt avail rest (used + (cnt x.content : Int)) := by
          simp only [optimize_loop, if_pos hr, if_pos hf]
        rw [e] at hm
        rcases List.mem_cons.mp hm with h | h
        · rw [h]; exact hr
        · exact ih _ m h
      · have e : optimize_loop cnt avail (x :: rest) used = [] := by
          simp only [optimize_loop, if_pos hr, if_neg hf]
        rw [e] at hm
        exact absurd hm (List.not_mem_nil m)
    · have e : optimize_loop cnt avail (x :: rest) used
          = optimize_loop cnt avail rest used := by
        simp only [optimize_loop, if_neg hr]
      rw [e] at hm
      exact ih _ m hm

/-- **C10.** For every chat history, including one containing turns whose
role is neither user nor assistant: (a) every turn selected by
`_optimize_chat_history_for_context` has role user or assistant (other
roles are skipped, never selected); and (b) the messages array built by
`_build_openai_messages` is exactly one leading system message carrying the
personalized system prompt, then only user/assistant history entries, then
a final user message whose content is the current `user_message`. -/
theorem messages_shape :
    (∀ (cnt : PyStr → Nat) (st : Settings) (chat_history : List Msg)
        (system_tokens current_message_tokens max_context_tokens : Nat),
      ∀ m ∈ _optimize_chat_history_for_context cnt st chat_history system_tokens
          current_message_tokens max_context_tokens,
        m.role = "user" ∨ m.role = "assistant")
    ∧ (∀ (cnt : PyStr → Nat) (st : Settings) (base_prompt : PyStr)
        (user_preferences : Option PyStr) (user_message : PyStr) (chat_history : List Msg),
      ∃ mid, _build_openai_messages cnt st base_prompt user_preferences user_message
            chat_history
          = Msg.mk "system" (build_personalized_system_prompt base_prompt user_preferences)
            :: (mid ++ [Msg.mk "user" user_message])
        ∧ ∀ m ∈ mid, m.role = "user" ∨ m.role = "assistant") := by
  constructor
  · intro cnt st chat_history sys cur cap m hm
    unfold _optimize_chat_history_for_context at hm
    split_ifs at hm with h0 h1
    · exact absurd hm (List.not_mem_nil m)
    · exact absurd hm (List.not_mem_nil m)
    · exact optimize_loop_roles cnt (opt_available st sys cur cap)
        chat_history.reverse 0 m (List.mem_reverse.mp hm)
  · intro cnt st base_prompt up user_message chat_history
    refine ⟨(_optimize_chat_history_for_context cnt st chat_history
        (cnt (build_personalized_system_prompt base_prompt up)) (cnt user_message)
        8000).filter (fun m => m.role == "user" || m.role == "assistant"), rfl, ?_⟩
    intro m hm
    have hp := (List.mem_filter.mp hm).2
    simp only [Bool.or_eq_true, beq_iff_eq] at hp
    exact hp

/-- Witness for C10 on a concrete history with one user turn. -/
theorem messages_shape_witness :
    ((Msg.mk "user" "hello".data).role = "user"
      ∨ (Msg.mk "user" "hello".data).role = "assistant")
    ∧ ∃ mid, _build_openai_messages (fun s => s.length / 4) (Settings.mk 512 8000) [] none
          "hi".data [Msg.mk "user" "hello".data]
        = Msg.mk "system" (build_personalized_system_prompt [] none)
          :: (mid ++ [Msg.mk "user" "hi".data])
        ∧ ∀ m ∈ mid, m.role = "user" ∨ m.role = "assistant" :=
  ⟨messages_shape.1 (fun s => s.length / 4) (Settings.mk 512 8000)
      [Msg.mk "user" "hello".data] 0 0 8000 (Msg.mk "user" "hello".data) (by decide),
   messages_shape.2 (fun s => s.length / 4) (Settings.mk 512 8000) [] none "hi".data
      [Msg.mk "user" "hello".data]⟩

/-- Witness for C8 (amended) at the 3-character input `"abc"`. -/
theorem fallback_count_floor_witness :
    ∃ n : Nat, count_tokens_impl none "abc".data = Except.ok n
      ∧ 4 * n ≤ "abc".data.length ∧ "abc".data.length < 4 * n + 4 :=
  fallback_count_floor "abc".data
